import Mathlib

/- Shallow embedding of the Unity Catalog tool adapters found in
   src/libs/langchain/src/langchain/tools/spark_unitycatalog/tool.py and
   src/libs/langchain/src/langchain/tools/unitycatalog_database/tool.py.
   HTTP, JSON decoding and SQL execution are external collaborators and are
   passed in as explicit function parameters; everything else is translated
   directly from the Python source. -/

/- Char-list helpers modelling Python substring primitives.
   listStartsWith pat l models "l.startswith(pat)";
   listHasSub pat l models "pat in l". -/

def listStartsWith : List Char → List Char → Bool
  | [], _ => true
  | _ :: _, [] => false
  | a :: as, b :: bs => if a = b then listStartsWith as bs else false

def listHasSub (pat : List Char) : List Char → Bool
  | [] => listStartsWith pat []
  | c :: tl => listStartsWith pat (c :: tl) || listHasSub pat tl

/- strContains s sub models Python "sub in s". -/
def strContains (s sub : String) : Bool :=
  listHasSub sub.toList s.toList

/- Errors raised by sqlalchemy connection.execute; the source catches only
   ProgrammingError, so the embedding distinguishes it from everything else. -/
inductive SqlError where
  | programmingError (msg : String)
  | otherError (msg : String)
deriving DecidableEq

/- One entry of the "columns" array of a table-detail JSON payload. -/
structure ColumnJson where
  name : String
  type_text : String
  comment : Option String
deriving DecidableEq

/- The decoded table-detail JSON payload: json_data["columns"] plus the
   optional top-level "comment". -/
structure TableDetailJson where
  columns : List ColumnJson
  comment : Option String
deriving DecidableEq

/- One entry of the "tables" array of the list-tables JSON payload. -/
structure TablesEntryJson where
  name : String
  comment : Option String
deriving DecidableEq

/- An HTTP response as observed by the tools: status_code and text. -/
structure Response where
  status_code : Nat
  text : String
deriving DecidableEq

/- Failures of a tool invocation: the raised Exception on a non-200 response,
   a json.loads / KeyError failure, a propagated SQL error, and the NameError
   hit when the per-table loop body never ran (empty table list). -/
inductive RunError where
  | http (msg : String)
  | jsonDecode (body : String)
  | sql (e : SqlError)
  | nameErrorStringData
deriving DecidableEq

deriving instance DecidableEq for Except

def sample_rows_in_table_info : Nat := 3

/- str(i)[:100]: keep the first 100 characters of the cell rendering. -/
def pyTruncate100 (s : String) : String := String.mk (s.data.take 100)

/- "Select * from {table} limit {sample_rows_in_table_info}" -/
def sqlCommand (table : String) : String :=
  "Select * from " ++ (table ++ (" limit " ++ toString sample_rows_in_table_info))

/- InfoUnityCatalogTool._get_sample_rows (spark variant) and
   InfoUnityCatalogTool.get_sample_rows (unitycatalog_database variant):
   execute the sample query, stringify-and-truncate each cell to 100 chars,
   tab-join cells and newline-join rows; only ProgrammingError is caught and
   turned into the empty string, every other error propagates. -/
def get_sample_rows (execute : String → Except SqlError (List (List String)))
    (table : String) : Except SqlError String :=
  match execute (sqlCommand table) with
  | .ok rs =>
    .ok ("\n".intercalate (rs.map (fun row => "\t".intercalate (row.map pyTruncate100))))
  | .error (SqlError.programmingError _) => .ok ""
  | .error e => .error e

/- column_info["type_text"].upper(): uppercase each character. -/
def pyUpper (s : String) : String := String.mk (s.data.map Char.toUpper)

/- One column line of the generated CREATE TABLE body. Python truthiness:
   a missing comment and an empty-string comment both drop the COMMENT
   clause. -/
def columnLine (c : ColumnJson) : String :=
  match c.comment with
  | some cc =>
    if cc.isEmpty then "\t" ++ (c.name ++ (" " ++ (pyUpper c.type_text ++ " ")))
    else "\t" ++ (c.name ++ (" " ++ (pyUpper c.type_text ++ (" COMMENT '" ++ (cc ++ "' ")))))
  | none => "\t" ++ (c.name ++ (" " ++ (pyUpper c.type_text ++ " ")))

/- Loop body of _generate_create_table_query: append the column line, then a
   comma when `column_info != table_data[-1]` (a value comparison against the
   last element, exactly as in the source), then a newline. -/
def colsFoldStep (lastc : Option ColumnJson) (q : String) (c : ColumnJson) : String :=
  q ++ (columnLine c ++ ((if lastc = some c then "" else ",") ++ "\n"))

/- Header line: `if table_comment:` is Python truthiness, so both None and
   the empty string take the comment-less branch. -/
def headerStr (table_name : String) (table_comment : Option String) : String :=
  match table_comment with
  | some c =>
    if c.isEmpty then "CREATE TABLE " ++ (table_name ++ " (\n")
    else "CREATE TABLE " ++ (table_name ++ (" COMMENT '" ++ (c ++ "' (\n")))
  | none => "CREATE TABLE " ++ (table_name ++ " (\n")

/- The `query` local of _generate_create_table_query just before the sample
   block is appended: header, per-column loop, then ") USING DELTA". -/
def ddlPart (table_name : String) (table_comment : Option String)
    (table_data : List ColumnJson) : String :=
  (table_data.foldl (colsFoldStep table_data.getLast?) (headerStr table_name table_comment))
    ++ ") USING DELTA"

/- columns_str = "\t".join(name for each column) -/
def columnsStr (table_data : List ColumnJson) : String :=
  "\t".intercalate (table_data.map ColumnJson.name)

/- _generate_create_table_query / generate_create_table_query: the final
   returned string. Note the closing marker of the sample block in the source
   is the Python literal "\n\*\n", i.e. newline backslash asterisk newline. -/
def generate_create_table_query (execute : String → Except SqlError (List (List String)))
    (table_data : List ColumnJson) (table_name : String) (table_comment : Option String) :
    Except SqlError String :=
  match get_sample_rows execute table_name with
  | .error e => .error e
  | .ok top3 =>
    .ok (ddlPart table_name table_comment table_data ++
      ("\n\n/*\n" ++ (toString sample_rows_in_table_info ++ (" rows from " ++
        (table_name ++ (" table:\n" ++ (columnsStr table_data ++ ("\n" ++ (top3 ++ "\n\\*\n")))))))))

/- URL built inside the per-table loop of get_table_details_from_unity_catalog. -/
def tableUrl (host catalog schema table_name : String) : String :=
  "https://" ++ (host ++ ("/api/2.1/unity-catalog/tables/" ++
    (catalog ++ ("." ++ (schema ++ ("." ++ table_name))))))

/- Per-table loop of the spark variant: raise on a non-200 response, decode
   the body, render the table; `string_data` is overwritten every iteration
   and `final_string` is never touched inside the loop, so only the last
   rendered table survives (modelled by threading the Option String). -/
def sparkLoop (fetch : String → Response) (decode : String → Option TableDetailJson)
    (execute : String → Except SqlError (List (List String))) (url : String → String) :
    List String → Option String → Except RunError (Option String)
  | [], lst => .ok lst
  | t :: rest, _lst =>
    let resp := fetch (url t)
    if resp.status_code ≠ 200 then
      .error (.http ("Error fetching table " ++ (t ++ (": " ++ resp.text))))
    else
      match decode resp.text with
      | none => .error (.jsonDecode resp.text)
      | some j =>
        match generate_create_table_query execute j.columns t j.comment with
        | .error e => .error (.sql e)
        | .ok sd =>
          sparkLoop fetch decode execute url rest (some sd)

/- InfoUnityCatalogTool.get_table_details_from_unity_catalog (spark variant):
   returns f"{final_string}\n{string_data}" with final_string still "". -/
def spark_get_table_details (fetch : String → Response) (decode : String → Option TableDetailJson)
    (execute : String → Except SqlError (List (List String)))
    (host catalog schema : String) (table_names : List String) : Except RunError String :=
  match sparkLoop fetch decode execute (tableUrl host catalog schema) table_names none with
  | .error e => .error e
  | .ok none => .error .nameErrorStringData
  | .ok (some sd) => .ok (("" ++ "\n") ++ sd)

/- The list of URLs actually requested by the spark per-table loop (a request
   is issued for a table before its status is checked; a non-200 aborts the
   loop). -/
def sparkRequests (fetch : String → Response) (url : String → String) :
    List String → List String
  | [] => []
  | t :: rest =>
    url t :: (if (fetch (url t)).status_code ≠ 200 then [] else sparkRequests fetch url rest)

/- Python's table_names.split(", ") specialised to the literal two-character
   separator used by _run: scan left to right, split at each non-overlapping
   occurrence of comma-space. -/
def splitCommaSpace : List Char → List Char → List (List Char)
  | [], cur => [cur.reverse]
  | ',' :: ' ' :: rest, cur => cur.reverse :: splitCommaSpace rest []
  | c :: rest, cur => splitCommaSpace rest (c :: cur)

def pySplitCommaSpace (s : String) : List String :=
  (splitCommaSpace s.toList []).map (fun l => String.mk l)

/- InfoUnityCatalogTool._run (spark variant): split the input on ", " and
   describe the resulting table names. -/
def spark_run (fetch : String → Response) (decode : String → Option TableDetailJson)
    (execute : String → Except SqlError (List (List String)))
    (host catalog schema : String) (table_names : String) : Except RunError String :=
  spark_get_table_details fetch decode execute host catalog schema (pySplitCommaSpace table_names)

/- Per-table loop of the unitycatalog_database variant: identical rendering,
   but the response status is never inspected — the body is decoded
   unconditionally. -/
def ucLoop (fetch : String → Response) (decode : String → Option TableDetailJson)
    (execute : String → Except SqlError (List (List String))) (url : String → String) :
    List String → Option String → Except RunError (Option String)
  | [], lst => .ok lst
  | t :: rest, _lst =>
    match decode (fetch (url t)).text with
    | none => .error (.jsonDecode (fetch (url t)).text)
    | some j =>
      match generate_create_table_query execute j.columns t j.comment with
      | .error e => .error (.sql e)
      | .ok sd =>
        ucLoop fetch decode execute url rest (some sd)

/- InfoUnityCatalogTool.get_table_details_from_unity_catalog
   (unitycatalog_database variant): final_string += '\n' + string_data runs
   once, after the loop, so again only the last table survives. -/
def uc_get_table_details (fetch : String → Response) (decode : String → Option TableDetailJson)
    (execute : String → Except SqlError (List (List String)))
    (host catalog schema : String) (table_names : List String) : Except RunError String :=
  match ucLoop fetch decode execute (tableUrl host catalog schema) table_names none with
  | .error e => .error e
  | .ok none => .error .nameErrorStringData
  | .ok (some sd) => .ok ("" ++ ("\n" ++ sd))

/- Rendering loop of ListUnityCatalogTablesTool: f"{name}({comment})\n" where
   a missing comment prints as Python None. -/
def listTablesRender (tables : List TablesEntryJson) : String :=
  tables.foldl
    (fun acc t =>
      acc ++ (t.name ++ ("(" ++ ((match t.comment with | some c => c | none => "None") ++ ")\n"))))
    ""

/- ListUnityCatalogTablesTool.get_table_list_from_unitycatalog: raise on a
   non-200 response (message carries only the response text), otherwise
   decode the "tables" array and render it. -/
def get_table_list_from_unitycatalog (decode : String → Option (List TablesEntryJson))
    (resp : Response) : Except RunError String :=
  if resp.status_code ≠ 200 then
    .error (.http ("Error fetching list of tables : " ++ resp.text))
  else
    match decode resp.text with
    | none => .error (.jsonDecode resp.text)
    | some tables => .ok (listTablesRender tables)

/- Model of Python re-module behaviour for the two patterns used by
   SqlQueryValidatorTool._parse_db_schema. A lazy `.*?` group scanned up to a
   literal closing string: at each scan point first try the closing literal
   (shortest match wins), otherwise consume one character, which must not be
   a newline unless DOTALL is in effect. -/
def lazyGroupTo (close : List Char) (dotNL : Bool) : List Char → Option (List Char)
  | [] => if listStartsWith close [] then some [] else none
  | c :: rest =>
    if listStartsWith close (c :: rest) then some []
    else if dotNL || c ≠ '\n' then (lazyGroupTo close dotNL rest).map (fun g => c :: g)
    else none

def ctHeadPat : List Char := "CREATE TABLE ".toList

def commentPat : List Char := " COMMENT".toList

def usingDeltaPat : List Char := "USING DELTA".toList

/- Attempt to match r"CREATE TABLE (.*?) COMMENT" at the start of t,
   returning the group. -/
def matchCTCAt (t : List Char) : Option (List Char) :=
  if listStartsWith ctHeadPat t then lazyGroupTo commentPat false (t.drop ctHeadPat.length)
  else none

/- re.search for r"CREATE TABLE (.*?) COMMENT": leftmost match wins. -/
def reSearchCTC : List Char → Option (List Char)
  | [] => none
  | c :: rest =>
    match matchCTCAt (c :: rest) with
    | some g => some g
    | none => reSearchCTC rest

/- Attempt to match rf"CREATE TABLE {table_name}.*?USING DELTA" (DOTALL) at
   the start of t, returning the whole match (group()). -/
def matchCT2At (tname : List Char) (t : List Char) : Option (List Char) :=
  if listStartsWith (ctHeadPat ++ tname) t then
    (lazyGroupTo usingDeltaPat true (t.drop (ctHeadPat ++ tname).length)).map
      (fun g => (ctHeadPat ++ tname) ++ (g ++ usingDeltaPat))
  else none

/- re.search for the DOTALL pattern: leftmost match wins. -/
def reSearchCT2 (tname : List Char) : List Char → Option (List Char)
  | [] => none
  | c :: rest =>
    match matchCT2At tname (c :: rest) with
    | some g => some g
    | none => reSearchCT2 tname rest

/- Python dict assignment d[k] = v on an insertion-ordered dict, modelled on
   an association list: replace in place if the key exists, else append. -/
def dictInsert (m : List (String × String)) (k v : String) : List (String × String) :=
  if m.any (fun p => p.1 = k) then m.map (fun p => if p.1 = k then (k, v) else p)
  else m ++ [(k, v)]

/- Body of _parse_db_schema for one matching log entry: extract the table
   name with the first pattern, then the full DDL block with the second, and
   store it; on any failed search the accumulator is left unchanged. -/
def parseEntry (acc : List (String × String)) (input_string : String) : List (String × String) :=
  match reSearchCTC input_string.toList with
  | none => acc
  | some tname =>
    match reSearchCT2 tname input_string.toList with
    | none => acc
    | some schema => dictInsert acc (String.mk tname) (String.mk schema)

/- The scan over self.state (a list of single-entry {tool_name: output}
   dicts, flattened here to ordered pairs): an entry whose tool name does not
   contain "sql_db_schema" makes the whole function return None at once. -/
def parseGo : List (String × String) → List (String × String) → Option (List (String × String))
  | [], acc => some acc
  | (key, input_string) :: rest, acc =>
    if strContains key "sql_db_schema" then parseGo rest (parseEntry acc input_string)
    else none

/- SqlQueryValidatorTool._parse_db_schema. -/
def parse_db_schema (state : List (String × String)) : Option (List (String × String)) :=
  parseGo state []

/- Characters of an ordinary SQL identifier; used to state the side
   conditions under which the validator regex analysis is carried out. -/
def safeChar (c : Char) : Bool := c.isAlphanum || c = '_'

lemma safeChar_ne_space {c : Char} (h : safeChar c = true) : c ≠ ' ' := by
  intro he
  subst he
  revert h
  decide

lemma safeChar_ne_newline {c : Char} (h : safeChar c = true) : c ≠ '\n' := by
  intro he
  subst he
  revert h
  decide

lemma listStartsWith_append (l t : List Char) : listStartsWith l (l ++ t) = true := by
  induction l with
  | nil => rfl
  | cons a as ih => simp [listStartsWith, ih]

lemma listHasSub_of_suffix (l : List Char) (pat t : List Char)
    (h1 : listStartsWith pat t = true) (h2 : t <:+ l) : listHasSub pat l = true := by
  induction l with
  | nil =>
    have ht : t = [] := List.suffix_nil.mp h2
    subst ht
    simpa [listHasSub] using h1
  | cons c rest ih =>
    rcases List.suffix_cons_iff.mp h2 with h | h
    · subst h
      simp [listHasSub, h1]
    · simp [listHasSub, ih h]

lemma commentPat_eq : commentPat = [' ', 'C', 'O', 'M', 'M', 'E', 'N', 'T'] := by decide

lemma lazyGroupTo_safe_fail (nm : List Char) (rest : List Char)
    (h : ∀ c ∈ nm, safeChar c = true) :
    lazyGroupTo commentPat false (nm ++ (' ' :: '(' :: '\n' :: rest)) = none := by
  induction nm with
  | nil =>
    have e1 : listStartsWith commentPat (' ' :: '(' :: '\n' :: rest) = false := by
      rw [commentPat_eq]
      simp [listStartsWith]
    have e2 : listStartsWith commentPat ('(' :: '\n' :: rest) = false := by
      rw [commentPat_eq]
      simp [listStartsWith]
    have e3 : listStartsWith commentPat ('\n' :: rest) = false := by
      rw [commentPat_eq]
      simp [listStartsWith]
    simp [lazyGroupTo, e1, e2, e3]
  | cons c tl ih =>
    have hc : safeChar c = true := h c (List.mem_cons_self c tl)
    have e1 : listStartsWith commentPat (c :: (tl ++ (' ' :: '(' :: '\n' :: rest))) = false := by
      rw [commentPat_eq]
      simp [listStartsWith, safeChar_ne_space hc]
      intro he
      exact absurd he.symm (safeChar_ne_space hc)
    have ihx := ih (fun x hx => h x (List.mem_cons_of_mem c hx))
    simp [lazyGroupTo, e1, safeChar_ne_newline hc, ihx]

lemma reSearchCTC_eq_none (l : List Char) (h : ∀ t, t <:+ l → matchCTCAt t = none) :
    reSearchCTC l = none := by
  induction l with
  | nil => rfl
  | cons c rest ih =>
    have h0 : matchCTCAt (c :: rest) = none := h _ (List.suffix_refl _)
    have h1 : reSearchCTC rest = none :=
      ih (fun t ht => h t (ht.trans (List.suffix_cons c rest)))
    simp [reSearchCTC, h0, h1]

lemma matchCTCAt_safe_header (nm rest : List Char) (hsafe : ∀ c ∈ nm, safeChar c = true) :
    matchCTCAt (ctHeadPat ++ (nm ++ (' ' :: '(' :: '\n' :: rest))) = none := by
  unfold matchCTCAt
  rw [if_pos (listStartsWith_append ctHeadPat _), List.drop_left]
  exact lazyGroupTo_safe_fail nm rest hsafe

lemma foldl_colsFoldStep_append (lst : Option ColumnJson) (cols : List ColumnJson) :
    ∀ q0 : String, cols.foldl (colsFoldStep lst) q0 = q0 ++ cols.foldl (colsFoldStep lst) "" := by
  induction cols with
  | nil => intro q0; simp [List.foldl]
  | cons c cs ih =>
    intro q0
    simp only [List.foldl_cons]
    rw [ih (colsFoldStep lst q0 c), ih (colsFoldStep lst "" c)]
    show (q0 ++ _) ++ _ = _
    rw [String.append_assoc]
    rfl

/- Position-based rendering of the column block, following the spec text:
   a trailing comma after every column except the positionally last one. -/
def specColumns : List ColumnJson → String
  | [] => ""
  | [c] => columnLine c ++ "\n"
  | c :: c2 :: rest => columnLine c ++ (",\n" ++ specColumns (c2 :: rest))

lemma colsFold_distinct (cols : List ColumnJson) :
    ∀ l : ColumnJson, cols.getLast? = some l → (∀ c ∈ cols.dropLast, c ≠ l) →
    cols.foldl (colsFoldStep (some l)) "" = specColumns cols := by
  induction cols with
  | nil => intro l h1 _; simp at h1
  | cons c cs ih =>
    intro l h1 h2
    cases cs with
    | nil =>
      have hc : c = l := by simpa using h1
      subst hc
      simp [List.foldl, colsFoldStep, specColumns]
    | cons c2 rest =>
      rw [List.getLast?_cons_cons] at h1
      have hc : c ≠ l := h2 c (by simp [List.dropLast])
      have hrest : ∀ x ∈ (c2 :: rest).dropLast, x ≠ l := by
        intro x hx
        refine h2 x ?_
        simp [List.dropLast] at hx ⊢
        exact Or.inr hx
      rw [List.foldl_cons, foldl_colsFoldStep_append (some l) (c2 :: rest), ih l h1 hrest]
      have hstep : colsFoldStep (some l) "" c = columnLine c ++ ",\n" := by
        simp [colsFoldStep, (Ne.symm hc)]
      rw [hstep, String.append_assoc]
      simp [specColumns]

lemma parseGo_abort (k v : String) (hk : strContains k "sql_db_schema" = false) :
    ∀ (l₁ l₂ : List (String × String)) (acc : List (String × String)),
    parseGo (l₁ ++ (k, v) :: l₂) acc = none := by
  intro l₁
  induction l₁ with
  | nil => intro l₂ acc; simp [parseGo, hk]
  | cons e rest ih =>
    intro l₂ acc
    obtain ⟨ek, ev⟩ := e
    cases hm : strContains ek "sql_db_schema" with
    | true => simpa [parseGo, hm] using ih l₂ (parseEntry acc ev)
    | false => simp [parseGo, hm]

/-- C2: if any entry of the prior-tool-output log has a tool name that does
not contain "sql_db_schema", _parse_db_schema returns None (the empty/null
schema map) no matter what matching entries precede it (their accumulated
schemas are discarded) and no matter what entries follow it (they are never
able to influence the result). -/
theorem c2_short_circuit (l₁ l₂ : List (String × String)) (k v : String)
    (hk : strContains k "sql_db_schema" = false) :
    parse_db_schema (l₁ ++ (k, v) :: l₂) = none :=
  parseGo_abort k v hk l₁ l₂ []

/-- Witness for C2: a log with a matching schema entry before and after a
validator entry still reconstructs to None. -/
theorem c2_short_circuit_witness :
    parse_db_schema
      [("sql_db_schema", "CREATE TABLE a COMMENT 'd' (\n) USING DELTA"),
       ("sql_db_query_validator", "Select 1"),
       ("sql_db_schema", "CREATE TABLE b COMMENT 'e' (\n) USING DELTA")] = none :=
  c2_short_circuit
    [("sql_db_schema", "CREATE TABLE a COMMENT 'd' (\n) USING DELTA")]
    [("sql_db_schema", "CREATE TABLE b COMMENT 'e' (\n) USING DELTA")]
    "sql_db_query_validator" "Select 1" (by decide)

/-- C4 counterexample: a query-execution error that is not a
ProgrammingError is not swallowed: the sample-row fetch propagates it
instead of returning an empty row set, refuting "any query-execution error
... returns an empty row set and never propagates". -/
theorem c4_counterexample :
    get_sample_rows (fun _ => .error (.otherError "connection reset")) "t1" ≠ .ok ""
    ∧ get_sample_rows (fun _ => .error (.otherError "connection reset")) "t1"
        = .error (.otherError "connection reset") := by
  constructor
  · intro h
    exact Except.noConfusion h
  · rfl

/-- C4 amended: only a ProgrammingError raised by the sample-row SELECT is
swallowed into an empty row set; any other query-execution error propagates
to the caller unchanged. -/
theorem c4_amended :
    (∀ (execute : String → Except SqlError (List (List String))) (t m : String),
      execute (sqlCommand t) = .error (.programmingError m) →
      get_sample_rows execute t = .ok "")
    ∧ (∀ (execute : String → Except SqlError (List (List String))) (t m : String),
      execute (sqlCommand t) = .error (.otherError m) →
      get_sample_rows execute t = .error (.otherError m)) := by
  constructor <;> intro execute t m h <;> simp [get_sample_rows, h]

/-- Witness for C4 amended, at concrete failing executors. -/
theorem c4_amended_witness :
    get_sample_rows (fun _ => .error (.programmingError "permission denied")) "t1" = .ok ""
    ∧ get_sample_rows (fun _ => .error (.otherError "timeout")) "t1"
        = .error (.otherError "timeout") :=
  ⟨c4_amended.1 (fun _ => .error (.programmingError "permission denied")) "t1"
      "permission denied" rfl,
   c4_amended.2 (fun _ => .error (.otherError "timeout")) "t1" "timeout" rfl⟩

/-- C10: _run splits its input on the exact two-character separator
comma-space, so "tbl1,tbl2" (no space) is a single table name and the
per-table loop issues exactly one catalog request, for that literal name. -/
theorem c10_split_single_request (fetch : String → Response) (host catalog schema : String) :
    pySplitCommaSpace "tbl1,tbl2" = ["tbl1,tbl2"]
    ∧ sparkRequests fetch (tableUrl host catalog schema) (pySplitCommaSpace "tbl1,tbl2")
        = [tableUrl host catalog schema "tbl1,tbl2"] := by
  have hsplit : pySplitCommaSpace "tbl1,tbl2" = ["tbl1,tbl2"] := by decide
  refine ⟨hsplit, ?_⟩
  rw [hsplit]
  simp [sparkRequests]

/- Concrete catalog used to evaluate the multi-table describe operation:
   tbl1 and tbl2 both resolve (status 200), with one column each; the
   sample-row query fails with a ProgrammingError and is swallowed. -/
def twoTableDecode : String → Option TableDetailJson := fun s =>
  if s = tableUrl "h" "c" "s" "tbl1" then some ⟨[⟨"a", "int", none⟩], none⟩
  else if s = tableUrl "h" "c" "s" "tbl2" then some ⟨[⟨"b", "string", none⟩], none⟩
  else none

def failingExec : String → Except SqlError (List (List String)) := fun _ =>
  .error (.programmingError "m")

/-- C1 (evaluation at the failing input): describing the two successfully
resolving tables "tbl1, tbl2" returns only the block of the last table —
`final_string` is never extended inside the loop and `string_data` is
overwritten each iteration, so tbl1's CREATE TABLE block is absent from the
output in both the spark and the unitycatalog_database variant. -/
theorem c1_last_table_only :
    spark_run (fun u => ⟨200, u⟩) twoTableDecode failingExec "h" "c" "s" "tbl1, tbl2"
      = .ok "\nCREATE TABLE tbl2 (\n\tb STRING \n) USING DELTA\n\n/*\n3 rows from tbl2 table:\nb\n\n\\*\n"
    ∧ uc_get_table_details (fun u => ⟨200, u⟩) twoTableDecode failingExec "h" "c" "s"
        ["tbl1", "tbl2"]
      = .ok "\nCREATE TABLE tbl2 (\n\tb STRING \n) USING DELTA\n\n/*\n3 rows from tbl2 table:\nb\n\n\\*\n"
    ∧ listHasSub "CREATE TABLE tbl1".toList
        "\nCREATE TABLE tbl2 (\n\tb STRING \n) USING DELTA\n\n/*\n3 rows from tbl2 table:\nb\n\n\\*\n".toList
      = false := by
  refine ⟨?_, ?_, ?_⟩
  · decide
  · decide
  · decide

/-- C3 counterexample: the unitycatalog_database get-table operation never
inspects the status code — on a 500 response it parses the body as a table
payload and succeeds, refuting "both ... operations fail with a
CatalogRequestError ... and the response body is never parsed"; and the
spark list-tables error value is identical for two different non-200
statuses with the same body, so the raised error does not carry the HTTP
status. -/
theorem c3_counterexample :
    uc_get_table_details (fun _ => ⟨500, "B"⟩)
        (fun s => if s = "B" then some ⟨[⟨"a", "int", none⟩], none⟩ else none)
        failingExec "h" "c" "s" ["t1"]
      = .ok "\nCREATE TABLE t1 (\n\ta INT \n) USING DELTA\n\n/*\n3 rows from t1 table:\na\n\n\\*\n"
    ∧ get_table_list_from_unitycatalog (fun _ => none) ⟨404, "B"⟩
        = get_table_list_from_unitycatalog (fun _ => none) ⟨500, "B"⟩ := by
  constructor
  · decide
  · rfl

/-- C3 amended: in the spark variant, list-tables and get-table raise, on a
non-200 response, an error carrying the response body (but not the status
code) and independent of the JSON decoder — the body is not parsed on that
path; the unitycatalog_database variant performs no status check at all. -/
theorem c3_amended :
    (∀ (decode : String → Option (List TablesEntryJson)) (resp : Response),
      resp.status_code ≠ 200 →
      get_table_list_from_unitycatalog decode resp
        = .error (.http ("Error fetching list of tables : " ++ resp.text)))
    ∧ (∀ (fetch : String → Response) (decode : String → Option TableDetailJson)
        (execute : String → Except SqlError (List (List String)))
        (host catalog schema t : String) (rest : List String),
      (fetch (tableUrl host catalog schema t)).status_code ≠ 200 →
      spark_get_table_details fetch decode execute host catalog schema (t :: rest)
        = .error (.http ("Error fetching table "
            ++ (t ++ (": " ++ (fetch (tableUrl host catalog schema t)).text))))) := by
  constructor
  · intro decode resp h
    simp [get_table_list_from_unitycatalog, h]
  · intro fetch decode execute host catalog schema t rest h
    simp [spark_get_table_details, sparkLoop, h]

/-- Witness for C3 amended at concrete non-200 responses. -/
theorem c3_amended_witness :
    get_table_list_from_unitycatalog (fun _ => some []) ⟨404, "nope"⟩
      = .error (.http ("Error fetching list of tables : " ++ "nope"))
    ∧ spark_get_table_details (fun _ => ⟨503, "oops"⟩) (fun _ => none) failingExec
        "h" "c" "s" ["t1"]
      = .error (.http ("Error fetching table " ++ ("t1" ++ (": " ++ "oops")))) :=
  ⟨c3_amended.1 (fun _ => some []) ⟨404, "nope"⟩ (by decide),
   c3_amended.2 (fun _ => ⟨503, "oops"⟩) (fun _ => none) failingExec
     "h" "c" "s" "t1" [] (by decide)⟩

/-- C6 counterexample: the comma is decided by a value comparison with the
last column (`column_info != table_data[-1]`), not by position. With two
identical columns the first (non-last) column gets no trailing comma: the
rendered DDL contains no comma at all, where the claim requires exactly one
(after the first column). -/
theorem c6_counterexample :
    ddlPart "t" none [⟨"a", "int", none⟩, ⟨"a", "int", none⟩]
      = "CREATE TABLE t (\n\ta INT \n\ta INT \n) USING DELTA"
    ∧ (ddlPart "t" none [⟨"a", "int", none⟩, ⟨"a", "int", none⟩]).toList.count ',' = 0 := by
  constructor
  · decide
  · decide

/-- C6 amended: provided no non-last column descriptor is equal (by value)
to the last column's descriptor, the rendered DDL carries a trailing comma
on every column line except the positionally last one — i.e. the
value-comparison loop coincides with the position-based rendering
specColumns; a column equal in value to the last one loses its comma. -/
theorem c6_amended (table_name : String) (table_comment : Option String)
    (cols : List ColumnJson) (l : ColumnJson)
    (h1 : cols.getLast? = some l) (h2 : ∀ c ∈ cols.dropLast, c ≠ l) :
    ddlPart table_name table_comment cols
      = (headerStr table_name table_comment ++ specColumns cols) ++ ") USING DELTA" := by
  unfold ddlPart
  rw [h1, foldl_colsFoldStep_append (some l) cols, colsFold_distinct cols l h1 h2]

/-- Witness for C6 amended: two distinct columns render with a comma after
the first column only. -/
theorem c6_amended_witness :
    ddlPart "t" none [⟨"a", "int", none⟩, ⟨"b", "string", none⟩]
      = (headerStr "t" none ++ specColumns [⟨"a", "int", none⟩, ⟨"b", "string", none⟩])
          ++ ") USING DELTA" :=
  c6_amended "t" none [⟨"a", "int", none⟩, ⟨"b", "string", none⟩] ⟨"b", "string", none⟩
    (by decide) (by decide)

/-- C5 counterexample: for TableDescriptor t with columns
[(a,int,no comment),(b,string,comment c1)] and no table comment, the code
puts a trailing comma after the first column line ("\ta INT ,\n"), so the
output does not begin with the claim's exact string (which has no comma). -/
theorem c5_counterexample :
    generate_create_table_query (fun _ => .ok [])
        [⟨"a", "int", none⟩, ⟨"b", "string", some "c1"⟩] "t" none
      = .ok "CREATE TABLE t (\n\ta INT ,\n\tb STRING COMMENT 'c1' \n) USING DELTA\n\n/*\n3 rows from t table:\na\tb\n\n\\*\n"
    ∧ listStartsWith
        "CREATE TABLE t (\n\ta INT \n\tb STRING COMMENT 'c1' \n) USING DELTA".toList
        "CREATE TABLE t (\n\ta INT ,\n\tb STRING COMMENT 'c1' \n) USING DELTA\n\n/*\n3 rows from t table:\na\tb\n\n\\*\n".toList
      = false := by
  constructor
  · decide
  · decide

/-- C5 amended: for that table, render produces exactly
"CREATE TABLE t (\n\ta INT ,\n\tb STRING COMMENT 'c1' \n) USING DELTA"
(comma after the first column, before its newline) followed by the sample
block "\n\n/*\n3 rows from t table:\na\tb\n" ++ sample rows ++ "\n\\*\n". -/
theorem c5_amended (execute : String → Except SqlError (List (List String))) (s : String)
    (h : get_sample_rows execute "t" = .ok s) :
    generate_create_table_query execute [⟨"a", "int", none⟩, ⟨"b", "string", some "c1"⟩] "t" none
      = .ok ("CREATE TABLE t (\n\ta INT ,\n\tb STRING COMMENT 'c1' \n) USING DELTA\n\n/*\n3 rows from t table:\na\tb\n"
          ++ (s ++ "\n\\*\n")) := by
  have key : ∀ z : String,
      ddlPart "t" none [⟨"a", "int", none⟩, ⟨"b", "string", some "c1"⟩] ++
        ("\n\n/*\n" ++ (toString sample_rows_in_table_info ++ (" rows from " ++
          ("t" ++ (" table:\n" ++
            (columnsStr [⟨"a", "int", none⟩, ⟨"b", "string", some "c1"⟩] ++ ("\n" ++ z)))))))
      = "CREATE TABLE t (\n\ta INT ,\n\tb STRING COMMENT 'c1' \n) USING DELTA\n\n/*\n3 rows from t table:\na\tb\n"
          ++ z := by
    intro z
    simp only [← String.append_assoc]
    exact congrArg (fun w => w ++ z) (by decide)
  unfold generate_create_table_query
  rw [h]
  exact congrArg Except.ok (key (s ++ "\n\\*\n"))

/-- Witness for C5 amended at an executor returning one sample row. -/
theorem c5_amended_witness :
    generate_create_table_query (fun _ => .ok [["1", "x"]])
        [⟨"a", "int", none⟩, ⟨"b", "string", some "c1"⟩] "t" none
      = .ok ("CREATE TABLE t (\n\ta INT ,\n\tb STRING COMMENT 'c1' \n) USING DELTA\n\n/*\n3 rows from t table:\na\tb\n"
          ++ ("1\tx" ++ "\n\\*\n")) :=
  c5_amended (fun _ => .ok [["1", "x"]]) "1\tx" (by decide)

/-- C7 counterexample: the sample block's closing marker is the two-character
sequence backslash-asterisk followed by a newline; the rendered output
contains no "*/" at all, so it does not end with the claimed closing
marker "\*/" (nor with a conventional "*/"). -/
theorem c7_counterexample :
    generate_create_table_query (fun _ => .ok [["1"]]) [⟨"a", "int", none⟩] "t" none
      = .ok "CREATE TABLE t (\n\ta INT \n) USING DELTA\n\n/*\n3 rows from t table:\na\n1\n\\*\n"
    ∧ listHasSub "*/".toList
        "CREATE TABLE t (\n\ta INT \n) USING DELTA\n\n/*\n3 rows from t table:\na\n1\n\\*\n".toList
      = false := by
  constructor
  · decide
  · decide

/-- C7 amended: after the DDL part (which ends in ") USING DELTA") render
appends exactly a blank line, "/*", newline, "{k} rows from {name} table:"
with k rendered as "3", newline, the tab-joined column names, newline, the
sample rows, and the closing marker backslash-asterisk followed by a
newline (not "\*/"). -/
theorem c7_amended (table_name : String) (table_comment : Option String)
    (cols : List ColumnJson)
    (execute : String → Except SqlError (List (List String))) (s : String)
    (h : get_sample_rows execute table_name = .ok s) :
    generate_create_table_query execute cols table_name table_comment
      = .ok (ddlPart table_name table_comment cols ++ ("\n\n/*\n" ++ ("3 rows from " ++
          (table_name ++ (" table:\n" ++ (columnsStr cols ++ ("\n" ++ (s ++ "\n\\*\n")))))))) := by
  have h3 : ∀ R : String,
      toString sample_rows_in_table_info ++ (" rows from " ++ R) = "3 rows from " ++ R := by
    intro R
    rw [← String.append_assoc]
    exact congrArg (fun w => w ++ R) (by decide)
  unfold generate_create_table_query
  rw [h]
  refine congrArg Except.ok ?_
  rw [h3]

/-- Witness for C7 amended at a concrete table carrying a table-level
comment. -/
theorem c7_amended_witness :
    generate_create_table_query (fun _ => .ok [["1"]]) [⟨"a", "int", none⟩] "t" (some "desc")
      = .ok (ddlPart "t" (some "desc") [⟨"a", "int", none⟩] ++ ("\n\n/*\n" ++ ("3 rows from " ++
          ("t" ++ (" table:\n" ++ (columnsStr [⟨"a", "int", none⟩] ++ ("\n" ++ ("1" ++ "\n\\*\n")))))))) :=
  c7_amended "t" (some "desc") [⟨"a", "int", none⟩] (fun _ => .ok [["1"]]) "1" (by decide)

/-- C8: when the sample query fails with the swallowed ProgrammingError or
returns zero rows, the rendered output still carries the whole sample block
— opening marker, count line, tab-joined column names — with an empty row
section, followed by the closing marker. -/
theorem c8_empty_block (table_name : String) (table_comment : Option String)
    (cols : List ColumnJson) (execute : String → Except SqlError (List (List String)))
    (h : (∃ m, execute (sqlCommand table_name) = .error (.programmingError m))
         ∨ execute (sqlCommand table_name) = .ok []) :
    generate_create_table_query execute cols table_name table_comment
      = .ok (ddlPart table_name table_comment cols ++ ("\n\n/*\n" ++
          (toString sample_rows_in_table_info ++ (" rows from " ++
            (table_name ++ (" table:\n" ++ (columnsStr cols ++ ("\n" ++ "\n\\*\n")))))))) := by
  have hs : get_sample_rows execute table_name = .ok "" := by
    rcases h with ⟨m, hm⟩ | hm
    · simp [get_sample_rows, hm]
    · simp [get_sample_rows, hm]
      rfl
  unfold generate_create_table_query
  rw [hs]
  rfl

/-- Witness for C8 at a table whose sample query is denied. -/
theorem c8_empty_block_witness :
    generate_create_table_query failingExec [⟨"a", "int", none⟩] "t" none
      = .ok (ddlPart "t" none [⟨"a", "int", none⟩] ++ ("\n\n/*\n" ++
          (toString sample_rows_in_table_info ++ (" rows from " ++
            ("t" ++ (" table:\n" ++ (columnsStr [⟨"a", "int", none⟩] ++ ("\n" ++ "\n\\*\n")))))))) :=
  c8_empty_block "t" none [⟨"a", "int", none⟩] failingExec (Or.inl ⟨"m", rfl⟩)

/-- C9: a table rendered with no table-level comment (header
"CREATE TABLE {name} (") is never added to the reconstructed schema map:
the extraction pattern needs the literal " COMMENT" after the table name on
the header line, so render-then-extract loses every comment-less table even
though its DDL block is in the log and ends in "USING DELTA". Stated for
tables whose name consists of identifier characters and whose rendered text
contains the "CREATE TABLE " token only at the start (no adversarial data
echoing the header inside column fields or sample rows). -/
theorem c9_commentless_lost (k table_name : String) (cols : List ColumnJson)
    (execute : String → Except SqlError (List (List String))) (s : String)
    (hk : strContains k "sql_db_schema" = true)
    (hsafe : ∀ c ∈ table_name.toList, safeChar c = true)
    (hgen : generate_create_table_query execute cols table_name none = .ok s)
    (htail : listHasSub ctHeadPat (s.toList.drop 1) = false) :
    parse_db_schema [(k, s)] = some [] := by
  cases hq : get_sample_rows execute table_name with
  | error e =>
    unfold generate_create_table_query at hgen
    rw [hq] at hgen
    exact Except.noConfusion hgen
  | ok top3 =>
    unfold generate_create_table_query at hgen
    simp only [hq, Except.ok.injEq] at hgen
    have hs2 : s = "CREATE TABLE " ++ (table_name ++ (" (\n" ++
        (cols.foldl (colsFoldStep cols.getLast?) "" ++ (") USING DELTA" ++
          ("\n\n/*\n" ++ (toString sample_rows_in_table_info ++ (" rows from " ++
            (table_name ++ (" table:\n" ++ (columnsStr cols ++
              ("\n" ++ (top3 ++ "\n\\*\n")))))))))))) := by
      rw [← hgen]
      unfold ddlPart
      rw [foldl_colsFoldStep_append cols.getLast? cols]
      simp only [headerStr, String.append_assoc]
    have hlist : s.toList = ctHeadPat ++ (table_name.toList ++ (' ' :: '(' :: '\n' ::
        ((cols.foldl (colsFoldStep cols.getLast?) "" ++ (") USING DELTA" ++
          ("\n\n/*\n" ++ (toString sample_rows_in_table_info ++ (" rows from " ++
            (table_name ++ (" table:\n" ++ (columnsStr cols ++
              ("\n" ++ (top3 ++ "\n\\*\n")))))))))).toList))) := by
      rw [hs2]
      simp only [String.toList, String.data_append]
      rfl
    have hnone : reSearchCTC s.toList = none := by
      apply reSearchCTC_eq_none
      intro t ht
      rcases ht with ⟨u, hu⟩
      cases u with
      | nil =>
        have heq : t = s.toList := by simpa using hu
        rw [heq, hlist]
        exact matchCTCAt_safe_header table_name.toList _ hsafe
      | cons a u2 =>
        have hts : t <:+ s.toList.drop 1 := ⟨u2, by rw [← hu]; rfl⟩
        cases hb : listStartsWith ctHeadPat t with
        | false => simp [matchCTCAt, hb]
        | true =>
          exfalso
          have hin := listHasSub_of_suffix (s.toList.drop 1) ctHeadPat t hb hts
          rw [hin] at htail
          exact Bool.noConfusion htail
    have hnone2 : reSearchCTC s.data = none := hnone
    simp [parse_db_schema, parseGo, hk, parseEntry, hnone2]

/-- Witness for C9: the rendered DDL of a comment-less one-column table t,
logged under the schema tool's name, reconstructs to the empty map. -/
theorem c9_commentless_lost_witness :
    parse_db_schema [("sql_db_schema",
      "CREATE TABLE t (\n\ta INT \n) USING DELTA\n\n/*\n3 rows from t table:\na\n\n\\*\n")]
      = some [] :=
  c9_commentless_lost "sql_db_schema" "t" [⟨"a", "int", none⟩] (fun _ => .ok [])
    "CREATE TABLE t (\n\ta INT \n) USING DELTA\n\n/*\n3 rows from t table:\na\n\n\\*\n"
    (by decide) (by decide) (by decide) (by decide)
